import Mathlib

/-!
Shallow embedding of `git-tracker` (src/src/main.rs), a local change-tracking
and commit-automation helper.  The program keeps a JSON change log and a JSON
config, and shells out to `git` for every version-control operation.

Modelling conventions:
  * Rust `String` is Lean `String`; the `HashMap<String, String>` of commit
    templates is an association list accessed with `List.lookup` (the program
    only ever looks keys up, so the map's iteration order is irrelevant).
  * Shelling out to `git` is modelled by a `GitEnv` record holding the
    outcome of each git invocation the program can make; the workflow
    records a trace of the git calls it performs (`GitCall`) so that
    "performs zero staging/commit/push calls" claims are statable.
  * `save_changes` (a full rewrite of the on-disk store) is modelled by
    accumulating the list of store writes, each write being the full list
    serialized.
  * Rust panics (`unwrap` on a missing `HashMap` key, i.e. the
    `commit_templates["feature"]` index in `generate_commit_message`) are
    modelled by `Option`: `none` is a panic.  `commit_and_push` returning
    `Ok(())` is modelled by `some` of its resulting state.
-/

/-- One recorded unit of work (struct `Change`, main.rs lines 39-45). -/
structure Change where
  timestamp : String
  type_ : String
  description : String
  files : List String
deriving DecidableEq, Repr

/-- Operator configuration (struct `Config`, main.rs lines 47-52).
The `HashMap` of templates is modelled as an association list. -/
structure Config where
  default_branch : String
  commit_templates : List (String × String)
  auto_push : Bool
deriving DecidableEq, Repr

/-- The in-memory coordinator (struct `GitTracker`, main.rs lines 54-59). -/
structure GitTracker where
  config : Config
  changes : List Change
  changes_path : String
deriving DecidableEq, Repr

/-- Outcome of each git invocation the program can make, fixed for one run.
`status`/`output` process-launch failures (the fatal tier) are out of scope:
every invocation is assumed to launch, except `branch --show-current` whose
launch failure is what makes `get_current_branch` return `None`
(main.rs line 127), so it is kept. -/
structure GitEnv where
  /-- `git rev-parse --git-dir` exit status is success (line 186-189). -/
  is_repo : Bool
  /-- stdout of `git status --porcelain` (line 196-198). -/
  status_stdout : String
  /-- whether `git branch --show-current` could be launched (line 124-127). -/
  branch_cmd_ok : Bool
  /-- stdout of `git branch --show-current` (line 130). -/
  branch_stdout : String
  /-- `git add .` exit status is success (line 210). -/
  add_ok : Bool
  /-- `git diff --cached --quiet` exit status is success, i.e. NOTHING is
  staged (lines 216-220, inverted semantics). -/
  staged_quiet : Bool
  /-- `git commit -m <msg>` exit status is success (line 234-239). -/
  commit_ok : Bool
  /-- `git remote get-url origin` exit status is success (line 250-253). -/
  remote_ok : Bool
  /-- stdout of `git ls-remote --heads origin <branch>` (lines 263-267). -/
  ls_remote_stdout : String → String
  /-- `git push ...` exit status is success (line 276). -/
  push_ok : Bool

/-- Trace element: one git invocation performed by `commit_and_push`. -/
inductive GitCall where
  | revParse
  | statusPorcelain
  | branchShowCurrent
  | addAll
  | diffCachedQuiet
  | commit (msg : String)
  | remoteGetUrl
  | lsRemoteHeads (branch : String)
  | pushUpstream (branch : String)
  | push (branch : String)
deriving DecidableEq, Repr

/-- Result state of one `commit_and_push` run: the final in-memory log, the
sequence of on-disk store rewrites (`save_changes` calls, each the full list
written), and the trace of git invocations. -/
structure CPResult where
  changes : List Change
  saves : List (List Change)
  calls : List GitCall
deriving DecidableEq, Repr

/-- Does `pat` match at the head of the second list?  (The matching step of
Rust `str::replace`, on character lists.) -/
def leadsWith : List Char → List Char → Bool
  | [], _ => true
  | _ :: _, [] => false
  | p :: ps, c :: cs => p == c && leadsWith ps cs

/-- Fuel-indexed worker for Rust `str::replace` on character lists: scan the
original string left to right, replacing each non-overlapping occurrence of
`pat` by `repl`; the replacement text is emitted verbatim and never
rescanned (the scan resumes after the matched occurrence of the original).
Each step consumes at least one character of the scanned list, so fuel equal
to the list's length suffices; the fuel only makes the recursion
structural. -/
def replaceFuel (pat repl : List Char) : Nat → List Char → List Char
  | _, [] => []
  | 0, s => s
  | fuel + 1, c :: rest =>
    if pat ≠ [] ∧ leadsWith pat (c :: rest) = true then
      repl ++ replaceFuel pat repl fuel ((c :: rest).drop pat.length)
    else
      c :: replaceFuel pat repl fuel rest

/-- Rust `str::replace` on character lists. -/
def replaceList (pat repl s : List Char) : List Char :=
  replaceFuel pat repl s.length s

/-- Rust `s.replace(pat, repl)` lifted to `String`. -/
def rustReplace (s pat repl : String) : String :=
  ⟨replaceList pat.toList repl.toList s.toList⟩

/-- The per-change block of `generate_commit_message` (main.rs lines 161-173):
look the change's type up in the template map, falling back to the
`"feature"` template; substitute `{message}` by the description; append the
`- <file>` block when files were recorded.  Rust's
`unwrap_or(&self.config.commit_templates["feature"])` evaluates the
`"feature"` index eagerly, so a missing `"feature"` key panics (`none`)
even when the change's own type is present. -/
def renderChange (cfg : Config) (ch : Change) : Option String :=
  match cfg.commit_templates.lookup "feature" with
  | none => none
  | some featureTemplate =>
    let template :=
      rustReplace ((cfg.commit_templates.lookup ch.type_).getD featureTemplate)
        "{message}" ch.description
    if ch.files.isEmpty then
      some template
    else
      some (template ++ "\n\n" ++
        String.intercalate "\n" (ch.files.map (fun f => "- " ++ f)))

/-- Render every change in log order (the `iter().map(..).collect()` of
main.rs lines 159-175); `none` as soon as a block panics. -/
def renderAll (cfg : Config) : List Change → Option (List String)
  | [] => some []
  | ch :: rest =>
    match renderChange cfg ch with
    | none => none
    | some block =>
      match renderAll cfg rest with
      | none => none
      | some blocks => some (block :: blocks)

/-- `generate_commit_message` (main.rs lines 154-177): the empty log yields
the fixed sentinel `"No changes recorded"`; otherwise the per-change blocks
joined by blank lines. -/
def generate_commit_message (t : GitTracker) : Option String :=
  if t.changes.isEmpty then
    some "No changes recorded"
  else
    match renderAll t.config t.changes with
    | none => none
    | some blocks => some (String.intercalate "\n\n" blocks)

/-- `get_current_branch` (main.rs lines 123-134): `None` exactly when the
`git branch --show-current` invocation cannot be launched; otherwise the
trimmed stdout, even when it is empty. -/
def get_current_branch (env : GitEnv) : Option String :=
  if env.branch_cmd_ok then some env.branch_stdout.trim else none

/-- Branch resolution of `commit_and_push` (main.rs line 206):
`branch.or_else(|| self.get_current_branch()).unwrap_or_else(|| self.config.default_branch.clone())`. -/
def resolveBranch (t : GitTracker) (env : GitEnv) (branchArg : Option String) : String :=
  ((branchArg.orElse fun _ => get_current_branch env).getD t.config.default_branch)

/-- `add_change` (main.rs lines 136-152): `now` models `Local::now().to_rfc3339()`
and `modified` models the result of `get_modified_files` (the `git diff
--name-only` query).  Returns the updated tracker and the list of on-disk
store writes performed (`save_changes`, main.rs lines 101-107, writes the
full list once). -/
def add_change (t : GitTracker) (now : String) (modified : List String)
    (description type_ : String) : GitTracker × List (List Change) :=
  let t' := { t with changes :=
    t.changes ++ [{ timestamp := now, type_ := type_,
                    description := description, files := modified }] }
  (t', [t'.changes])

/-- `commit_and_push` (main.rs lines 179-293), a direct transcription of the
linear workflow.  `some r` models the function returning `Ok(())` with
final in-memory log `r.changes`, on-disk store rewrites `r.saves` and git
trace `r.calls`; `none` models the panic of `generate_commit_message` when
`"feature"` is missing from a non-empty config lookup. -/
def commit_and_push (t : GitTracker) (env : GitEnv) (branchArg : Option String)
    (noPush : Bool) : Option CPResult :=
  if t.changes.isEmpty then
    some ⟨t.changes, [], []⟩
  else if !env.is_repo then
    some ⟨t.changes, [], [GitCall.revParse]⟩
  else if env.status_stdout.isEmpty then
    some ⟨t.changes, [], [GitCall.revParse, GitCall.statusPorcelain]⟩
  else
    let branchCalls : List GitCall :=
      match branchArg with
      | some _ => []
      | none => [GitCall.branchShowCurrent]
    let branch := resolveBranch t env branchArg
    let calls2 := [GitCall.revParse, GitCall.statusPorcelain] ++ branchCalls
    if !env.add_ok then
      some ⟨t.changes, [], calls2 ++ [GitCall.addAll]⟩
    else if env.staged_quiet then
      some ⟨t.changes, [], calls2 ++ [GitCall.addAll, GitCall.diffCachedQuiet]⟩
    else
      match generate_commit_message t with
      | none => none
      | some commitMessage =>
        if commitMessage.isEmpty then
          some ⟨t.changes, [], calls2 ++ [GitCall.addAll, GitCall.diffCachedQuiet]⟩
        else if !env.commit_ok then
          some ⟨t.changes, [],
            calls2 ++ [GitCall.addAll, GitCall.diffCachedQuiet, GitCall.commit commitMessage]⟩
        else
          let calls3 :=
            calls2 ++ [GitCall.addAll, GitCall.diffCachedQuiet, GitCall.commit commitMessage]
          if !noPush && t.config.auto_push then
            if !env.remote_ok then
              some ⟨[], [[]], calls3 ++ [GitCall.remoteGetUrl]⟩
            else
              let pushCall :=
                if (env.ls_remote_stdout branch).length > 0 then GitCall.push branch
                else GitCall.pushUpstream branch
              if env.push_ok then
                some ⟨[], [[]],
                  calls3 ++ [GitCall.remoteGetUrl, GitCall.lsRemoteHeads branch, pushCall]⟩
              else
                some ⟨t.changes, [],
                  calls3 ++ [GitCall.remoteGetUrl, GitCall.lsRemoteHeads branch, pushCall]⟩
          else
            some ⟨[], [[]], calls3⟩

/-- The built-in default templates seeded on first run (main.rs lines 69-76). -/
def defaultTemplates : List (String × String) :=
  [("feature", "feat: {message}"),
   ("fix", "fix: {message}"),
   ("docs", "docs: {message}"),
   ("style", "style: {message}"),
   ("refactor", "refactor: {message}"),
   ("test", "test: {message}"),
   ("chore", "chore: {message}")]

/-- The built-in default config seeded on first run (main.rs lines 78-82). -/
def defaultConfig : Config :=
  { default_branch := "main", commit_templates := defaultTemplates, auto_push := true }

/-- A tracker with the default config and an empty change log (the state of
a fresh run, main.rs lines 62-99). -/
def emptyTracker : GitTracker :=
  { config := defaultConfig, changes := [], changes_path := ".gt-changes.json" }

/-- A sample recorded change, used as concrete input of witnesses. -/
def sampleChange : Change :=
  { timestamp := "2024-01-01T00:00:00+00:00", type_ := "feature",
    description := "x", files := [] }

/-- A tracker with the default config and one recorded change. -/
def oneChangeTracker : GitTracker :=
  { config := defaultConfig, changes := [sampleChange], changes_path := ".gt-changes.json" }

/-- A config whose only template is an empty `"feature"` template: with it a
non-empty log can generate an empty commit message. -/
def emptyTemplateConfig : Config :=
  { default_branch := "main", commit_templates := [("feature", "")], auto_push := true }

/-- A tracker holding one change under `emptyTemplateConfig`; its generated
commit message is the empty string although its log is non-empty. -/
def emptyMessageTracker : GitTracker :=
  { config := emptyTemplateConfig, changes := [sampleChange], changes_path := ".gt-changes.json" }

/-- A sample git environment where every git operation succeeds. -/
def allOkEnv : GitEnv :=
  { is_repo := true, status_stdout := " M a.rs\n", branch_cmd_ok := true,
    branch_stdout := "main\n", add_ok := true, staged_quiet := false,
    commit_ok := true, remote_ok := true, ls_remote_stdout := fun _ => "",
    push_ok := true }

/-- An environment where the commit lands but the push fails. -/
def pushFailEnv : GitEnv := { allOkEnv with push_ok := false }

/-- An environment whose `git status --porcelain` output is empty. -/
def cleanTreeEnv : GitEnv := { allOkEnv with status_stdout := "" }

/-- An environment where `git branch --show-current` cannot be launched, so
`get_current_branch` yields `none`. -/
def noBranchCmdEnv : GitEnv := { allOkEnv with branch_cmd_ok := false }

/-- A change whose type tag has no entry in the default template map. -/
def weirdChange : Change :=
  { timestamp := "2024-01-01T00:00:00+00:00", type_ := "weird",
    description := "hello", files := ["a.rs"] }

/-- Does `pat` occur anywhere in the list?  Used only to state where the
`{message}` placeholder does and does not occur. -/
def containsPat (pat : List Char) : List Char → Bool
  | [] => false
  | c :: rest => leadsWith pat (c :: rest) || containsPat pat rest

theorem leadsWith_append (pat suf : List Char) : leadsWith pat (pat ++ suf) = true := by
  induction pat with
  | nil => rfl
  | cons p ps ih => simp [leadsWith, ih]

theorem replaceFuel_of_not_contains (pat repl : List Char) :
    ∀ (s : List Char) (n : Nat), containsPat pat s = false →
      replaceFuel pat repl n s = s := by
  intro s
  induction s with
  | nil => intro n _; cases n <;> rfl
  | cons c rest ih =>
    intro n h
    simp only [containsPat, Bool.or_eq_false_iff] at h
    cases n with
    | zero => rfl
    | succ m =>
      have hcond : ¬ (pat ≠ [] ∧ leadsWith pat (c :: rest) = true) := by
        intro hc
        rw [h.1] at hc
        exact absurd hc.2 (by simp)
      simp only [replaceFuel, if_neg hcond]
      exact congrArg (c :: ·) (ih m h.2)

theorem replaceFuel_insert (pat repl : List Char) (hpat : pat ≠ []) :
    ∀ (pre : List Char) (suf : List Char) (n : Nat),
      (pre ++ pat ++ suf).length ≤ n →
      (∀ i, i < pre.length → leadsWith pat ((pre ++ pat ++ suf).drop i) = false) →
      containsPat pat suf = false →
      replaceFuel pat repl n (pre ++ pat ++ suf) = pre ++ repl ++ suf := by
  intro pre
  induction pre with
  | nil =>
    intro suf n hn _ hsuf
    obtain ⟨p, ps, rfl⟩ : ∃ p ps, pat = p :: ps := by
      cases pat with
      | nil => exact absurd rfl hpat
      | cons p ps => exact ⟨p, ps, rfl⟩
    cases n with
    | zero => simp at hn
    | succ m =>
      show replaceFuel (p :: ps) repl (m + 1) (p :: (ps ++ suf)) = repl ++ suf
      have hcond : (p :: ps) ≠ [] ∧ leadsWith (p :: ps) (p :: (ps ++ suf)) = true :=
        ⟨hpat, leadsWith_append (p :: ps) suf⟩
      simp only [replaceFuel, if_pos hcond]
      have hdrop : (p :: (ps ++ suf)).drop (p :: ps).length = suf := by
        simpa using List.drop_left ps suf
      rw [hdrop, replaceFuel_of_not_contains (p :: ps) repl suf m hsuf]
  | cons c pre' ih =>
    intro suf n hn h hsuf
    cases n with
    | zero => simp at hn
    | succ m =>
      show replaceFuel pat repl (m + 1) (c :: (pre' ++ pat ++ suf)) =
        c :: (pre' ++ repl ++ suf)
      have h0 : leadsWith pat (c :: (pre' ++ pat ++ suf)) = false := by
        have := h 0 (by simp)
        simpa using this
      have hcond : ¬ (pat ≠ [] ∧ leadsWith pat (c :: (pre' ++ pat ++ suf)) = true) := by
        intro hc
        rw [h0] at hc
        exact absurd hc.2 (by simp)
      simp only [replaceFuel, if_neg hcond]
      refine congrArg (c :: ·) (ih suf m ?_ ?_ hsuf)
      · have hn' : (c :: (pre' ++ pat ++ suf)).length ≤ m + 1 := by
          simpa using hn
        simpa using hn'
      · intro i hi
        have := h (i + 1) (by simpa using Nat.succ_lt_succ hi)
        simpa [List.drop_succ_cons] using this

theorem replaceList_insert (pat repl pre suf : List Char) (hpat : pat ≠ [])
    (h : ∀ i, i < pre.length → leadsWith pat ((pre ++ pat ++ suf).drop i) = false)
    (hsuf : containsPat pat suf = false) :
    replaceList pat repl (pre ++ pat ++ suf) = pre ++ repl ++ suf :=
  replaceFuel_insert pat repl hpat pre suf _ le_rfl h hsuf

/-- Claim C8: template substitution replaces the literal `{message}`
placeholder in the template by the change's description in a single
non-recursive pass; the description is inserted verbatim for an arbitrary
`desc`, with no constraint on its content (it may itself contain `-`-prefixed
lines or the text `{message}`), provided the template's only placeholder
occurrence is the exhibited one.  `rustReplace` is exactly the substitution
`generate_commit_message` performs on each template (main.rs line 167). -/
theorem c8_substitution_verbatim (pre suf : List Char) (desc : String)
    (h : ∀ i, i < pre.length →
      leadsWith ("{message}".toList) ((pre ++ "{message}".toList ++ suf).drop i) = false)
    (hsuf : containsPat ("{message}".toList) suf = false) :
    rustReplace ⟨pre ++ "{message}".toList ++ suf⟩ "{message}" desc =
      ⟨pre ++ desc.toList ++ suf⟩ :=
  congrArg String.mk
    (replaceList_insert ("{message}".toList) desc.toList pre suf (by decide) h hsuf)

/-- Witness for C8 at a concrete template and a description that itself
contains both a `-`-prefixed line and the text `{message}`. -/
theorem c8_substitution_verbatim_witness :
    rustReplace ⟨"feat: ".toList ++ "{message}".toList ++ []⟩ "{message}"
        "x {message}\n- y" =
      ⟨"feat: ".toList ++ ("x {message}\n- y" : String).toList ++ []⟩ :=
  c8_substitution_verbatim "feat: ".toList [] "x {message}\n- y"
    (by decide) (by decide)

/-- Claim C5 (amended): commit-message generation is a deterministic pure
function of the change log and the config — any two trackers agreeing on
both fields generate the same message — and for the empty log it yields the
fixed non-empty sentinel `"No changes recorded"` (the code capitalises the
sentinel; the claim's quoted `"no changes recorded"` does not occur). -/
theorem c5_generation_pure_and_sentinel :
    (∀ t₁ t₂ : GitTracker, t₁.config = t₂.config → t₁.changes = t₂.changes →
      generate_commit_message t₁ = generate_commit_message t₂) ∧
    (∀ t : GitTracker, t.changes = [] →
      generate_commit_message t = some "No changes recorded") ∧
    ("No changes recorded" : String) ≠ "" := by
  refine ⟨?_, ?_, by decide⟩
  · intro t₁ t₂ hc hl
    unfold generate_commit_message
    rw [hc, hl]
  · intro t h
    unfold generate_commit_message
    rw [h]
    rfl

/-- Witness for C5 at the concrete empty tracker. -/
theorem c5_generation_pure_and_sentinel_witness :
    generate_commit_message emptyTracker = some "No changes recorded" :=
  c5_generation_pure_and_sentinel.2.1 emptyTracker rfl

/-- Counterexample for C5 as stated: the sentinel returned for the empty log
is `"No changes recorded"`, not the claimed string `"no changes recorded"`. -/
theorem c5_cex_sentinel_capitalization :
    generate_commit_message emptyTracker = some "No changes recorded" ∧
    generate_commit_message emptyTracker ≠ some "no changes recorded" := by
  refine ⟨rfl, ?_⟩
  decide

/-- Claim C6: a change whose type tag is absent from the config's template
map produces the same per-change block as the same change typed
`"feature"`: the `"feature"` template's substitution behaviour, files block
included. -/
theorem c6_unknown_type_falls_back (cfg : Config) (ch : Change) (ft : String)
    (habs : cfg.commit_templates.lookup ch.type_ = none)
    (hfeat : cfg.commit_templates.lookup "feature" = some ft) :
    renderChange cfg ch = renderChange cfg { ch with type_ := "feature" } := by
  unfold renderChange
  rw [hfeat]
  simp [habs, hfeat]

/-- Witness for C6 at the default config and a change typed `"weird"`. -/
theorem c6_unknown_type_falls_back_witness :
    renderChange defaultConfig weirdChange =
      renderChange defaultConfig { weirdChange with type_ := "feature" } :=
  c6_unknown_type_falls_back defaultConfig weirdChange "feat: {message}"
    (by decide) (by decide)

theorem renderChange_isSome (cfg : Config) (ch : Change) (ft : String)
    (hfeat : cfg.commit_templates.lookup "feature" = some ft) :
    (renderChange cfg ch).isSome = true := by
  unfold renderChange
  rw [hfeat]
  dsimp only
  split <;> rfl

theorem renderAll_isSome (cfg : Config) (ft : String)
    (hfeat : cfg.commit_templates.lookup "feature" = some ft) :
    ∀ l : List Change, (renderAll cfg l).isSome = true := by
  intro l
  induction l with
  | nil => rfl
  | cons ch rest ih =>
    have h1 := renderChange_isSome cfg ch ft hfeat
    unfold renderAll
    cases hr : renderChange cfg ch with
    | none => rw [hr] at h1; simp at h1
    | some b =>
      cases hrest : renderAll cfg rest with
      | none => rw [hrest] at ih; simp at ih
      | some bs => simp

/-- Claim C7: whenever the config's template map has a `"feature"` entry,
commit-message generation is total on every change log — the eager
`commit_templates["feature"]` fallback index never panics. -/
theorem c7_generation_total (t : GitTracker) (ft : String)
    (hfeat : t.config.commit_templates.lookup "feature" = some ft) :
    (generate_commit_message t).isSome = true := by
  unfold generate_commit_message
  split
  · rfl
  · have h := renderAll_isSome t.config ft hfeat t.changes
    cases hr : renderAll t.config t.changes with
    | none => rw [hr] at h; simp at h
    | some blocks => simp

/-- Witness for C7 at a concrete tracker with one recorded change. -/
theorem c7_generation_total_witness :
    (generate_commit_message oneChangeTracker).isSome = true :=
  c7_generation_total oneChangeTracker "feat: {message}" (by decide)

/-- Claim C9: recording a change appends exactly one entry — the length
grows by one, all prior entries are unchanged and in order, the new last
entry carries the input description, type tag, timestamp and file snapshot
verbatim — and the updated log is persisted in full (one store write of the
whole list). -/
theorem c9_add_change_appends_one (t : GitTracker) (now : String)
    (modified : List String) (d ty : String) :
    (add_change t now modified d ty).1.changes.length = t.changes.length + 1 ∧
    (add_change t now modified d ty).1.changes.take t.changes.length = t.changes ∧
    (add_change t now modified d ty).1.changes.getLast? =
      some { timestamp := now, type_ := ty, description := d, files := modified } ∧
    (add_change t now modified d ty).2 =
      [(add_change t now modified d ty).1.changes] := by
  refine ⟨by simp [add_change], ?_, ?_, rfl⟩
  · simpa [add_change] using List.take_left t.changes _
  · simp [add_change]

/-- Claim C10: the commit workflow's target branch is the explicit override
when supplied, else the current-branch query's result whenever that query
yields one, and the config's `default_branch` only when the query yields
nothing. -/
theorem c10_branch_resolution (t : GitTracker) (env : GitEnv) :
    (∀ b, resolveBranch t env (some b) = b) ∧
    (∀ s, get_current_branch env = some s → resolveBranch t env none = s) ∧
    (get_current_branch env = none →
      resolveBranch t env none = t.config.default_branch) := by
  refine ⟨fun b => rfl, ?_, ?_⟩
  · intro s hs
    simp [resolveBranch, Option.orElse, hs]
  · intro hs
    simp [resolveBranch, Option.orElse, hs]

/-- Witness for C10: the three priority cases at concrete inputs. -/
theorem c10_branch_resolution_witness :
    resolveBranch emptyTracker allOkEnv (some "dev") = "dev" ∧
    resolveBranch emptyTracker allOkEnv none = allOkEnv.branch_stdout.trim ∧
    resolveBranch emptyTracker noBranchCmdEnv none =
      emptyTracker.config.default_branch :=
  ⟨(c10_branch_resolution emptyTracker allOkEnv).1 "dev",
   (c10_branch_resolution emptyTracker allOkEnv).2.1 allOkEnv.branch_stdout.trim rfl,
   (c10_branch_resolution emptyTracker noBranchCmdEnv).2.2 rfl⟩

/-- Claim C3: with a non-empty change log, when `git status --porcelain`
reports no differences the workflow stops right after the status report:
the git trace is exactly the repo check and the status query (zero
staging, commit or push calls), the in-memory log is unchanged and no
store write happens. -/
theorem c3_clean_tree_stops (t : GitTracker) (env : GitEnv)
    (branchArg : Option String) (noPush : Bool)
    (h1 : t.changes.isEmpty = false) (h2 : env.is_repo = true)
    (h3 : env.status_stdout.isEmpty = true) :
    commit_and_push t env branchArg noPush =
      some ⟨t.changes, [], [GitCall.revParse, GitCall.statusPorcelain]⟩ := by
  simp [commit_and_push, h1, h2, h3]

/-- Witness for C3 at a concrete tracker and a clean-tree environment. -/
theorem c3_clean_tree_stops_witness :
    commit_and_push oneChangeTracker cleanTreeEnv none false =
      some ⟨oneChangeTracker.changes, [], [GitCall.revParse, GitCall.statusPorcelain]⟩ :=
  c3_clean_tree_stops oneChangeTracker cleanTreeEnv none false rfl rfl rfl

/-- Claim C2: when the commit succeeds but the subsequent push fails, the
workflow still returns normally (`some r`, i.e. `Ok(())`) and the change
log is exactly what it was: no entry removed, no store rewrite at all. -/
theorem c2_push_failure_keeps_log (t : GitTracker) (env : GitEnv)
    (branchArg : Option String) (noPush : Bool) (m : String)
    (h1 : t.changes.isEmpty = false) (h2 : env.is_repo = true)
    (h3 : env.status_stdout.isEmpty = false) (h4 : env.add_ok = true)
    (h5 : env.staged_quiet = false)
    (h6 : generate_commit_message t = some m) (h7 : m.isEmpty = false)
    (h8 : env.commit_ok = true)
    (h9 : noPush = false) (h10 : t.config.auto_push = true)
    (h11 : env.remote_ok = true) (h12 : env.push_ok = false) :
    ∃ r, commit_and_push t env branchArg noPush = some r ∧
      r.changes = t.changes ∧ r.saves = [] := by
  simp only [commit_and_push, h1, h2, h3, h4, h5, h6, h7, h8, h9, h10, h11, h12,
    Bool.not_true, Bool.not_false, Bool.false_eq_true, Bool.true_and, Bool.and_true,
    if_false, if_true, ite_true, ite_false, Bool.false_and, Bool.and_false]
  exact ⟨_, rfl, rfl, rfl⟩

/-- Witness for C2 at a concrete run whose push fails. -/
theorem c2_push_failure_keeps_log_witness :
    ∃ r, commit_and_push oneChangeTracker pushFailEnv none false = some r ∧
      r.changes = oneChangeTracker.changes ∧ r.saves = [] :=
  c2_push_failure_keeps_log oneChangeTracker pushFailEnv none false "feat: x"
    rfl rfl (by decide) rfl rfl (by decide) (by decide) rfl rfl rfl rfl rfl

/-- Claim C1: every run that reaches a fully successful commit — push
succeeded, push suppressed by the `--no-push` flag or by `auto_push =
false`, or push skipped because remote `origin` is absent — ends with the
in-memory change log cleared and exactly one store rewrite, of the empty
list. -/
theorem c1_full_success_clears_log (t : GitTracker) (env : GitEnv)
    (branchArg : Option String) (noPush : Bool) (m : String)
    (h1 : t.changes.isEmpty = false) (h2 : env.is_repo = true)
    (h3 : env.status_stdout.isEmpty = false) (h4 : env.add_ok = true)
    (h5 : env.staged_quiet = false)
    (h6 : generate_commit_message t = some m) (h7 : m.isEmpty = false)
    (h8 : env.commit_ok = true)
    (h9 : (noPush = true ∨ t.config.auto_push = false) ∨ env.remote_ok = false ∨
      env.push_ok = true) :
    ∃ r, commit_and_push t env branchArg noPush = some r ∧
      r.changes = [] ∧ r.saves = [[]] := by
  simp only [commit_and_push, h1, h2, h3, h4, h5, h6, h7, h8,
    Bool.not_true, Bool.not_false, Bool.false_eq_true, if_false, if_true,
    ite_true, ite_false]
  rcases h9 with (h | h) | h | h
  · simp only [h, Bool.not_true, Bool.false_and, Bool.false_eq_true, if_false, ite_false]
    exact ⟨_, rfl, rfl, rfl⟩
  · simp only [h, Bool.and_false, Bool.false_eq_true, if_false, ite_false]
    exact ⟨_, rfl, rfl, rfl⟩
  · cases hb : (!noPush && t.config.auto_push) with
    | false =>
      simp only [hb, Bool.false_eq_true, if_false, ite_false]
      exact ⟨_, rfl, rfl, rfl⟩
    | true =>
      simp only [hb, h, Bool.not_false, if_true, ite_true, Bool.false_eq_true,
        if_false, ite_false]
      exact ⟨_, rfl, rfl, rfl⟩
  · cases hb : (!noPush && t.config.auto_push) with
    | false =>
      simp only [hb, Bool.false_eq_true, if_false, ite_false]
      exact ⟨_, rfl, rfl, rfl⟩
    | true =>
      cases hr : env.remote_ok with
      | false =>
        simp only [hb, hr, Bool.not_false, if_true, ite_true]
        exact ⟨_, rfl, rfl, rfl⟩
      | true =>
        simp only [hb, hr, h, Bool.not_true, Bool.false_eq_true, if_false,
          ite_false, if_true, ite_true]
        exact ⟨_, rfl, rfl, rfl⟩

/-- Witness for C1 at a concrete run whose push succeeds. -/
theorem c1_full_success_clears_log_witness :
    ∃ r, commit_and_push oneChangeTracker allOkEnv (some "main") false = some r ∧
      r.changes = [] ∧ r.saves = [[]] :=
  c1_full_success_clears_log oneChangeTracker allOkEnv (some "main") false "feat: x"
    rfl rfl (by decide) rfl rfl (by decide) (by decide) rfl (Or.inr (Or.inr rfl))

/-- Counterexample for C4 as stated: the step-7 guard (main.rs line 227) is
`commit_message.is_empty()`, which does NOT detect the generator's
empty-log sentinel — that sentinel is the non-empty string
`"No changes recorded"` — while it DOES fire on a non-sentinel empty
message generated from a non-empty log under an empty `"feature"`
template.  So the guard detects the empty string, not "exactly the
sentinel case of the generator". -/
theorem c4_cex_guard_is_not_sentinel_check :
    generate_commit_message emptyTracker = some "No changes recorded" ∧
    ("No changes recorded" : String).isEmpty = false ∧
    generate_commit_message emptyMessageTracker = some "" ∧
    emptyMessageTracker.changes ≠ [] ∧
    ("" : String).isEmpty = true := by
  refine ⟨rfl, by decide, by decide, by decide, by decide⟩

/-- Claim C4 (amended): after staging succeeds with something staged, the
workflow reports and stops without committing when the generated commit
message is the EMPTY STRING (the actual guard); the empty-log sentinel,
being non-empty text, never satisfies this guard — and the sentinel case
cannot reach step 7 anyway, because step 1 already intercepts the empty
log. -/
theorem c4_empty_message_guard (t : GitTracker) (env : GitEnv)
    (branchArg : Option String) (noPush : Bool) (m : String)
    (h1 : t.changes.isEmpty = false) (h2 : env.is_repo = true)
    (h3 : env.status_stdout.isEmpty = false) (h4 : env.add_ok = true)
    (h5 : env.staged_quiet = false)
    (h6 : generate_commit_message t = some m) (h7 : m.isEmpty = true) :
    ∃ r, commit_and_push t env branchArg noPush = some r ∧
      r.changes = t.changes ∧ r.saves = [] ∧ ∀ s, GitCall.commit s ∉ r.calls := by
  simp only [commit_and_push, h1, h2, h3, h4, h5, h6, h7,
    Bool.not_true, Bool.not_false, Bool.false_eq_true, if_false, if_true,
    ite_true, ite_false]
  refine ⟨_, rfl, rfl, rfl, ?_⟩
  intro s
  cases branchArg <;> simp

/-- Witness for C4 at a run generating the empty (non-sentinel) message. -/
theorem c4_empty_message_guard_witness :
    ∃ r, commit_and_push emptyMessageTracker allOkEnv none false = some r ∧
      r.changes = emptyMessageTracker.changes ∧ r.saves = [] ∧
      ∀ s, GitCall.commit s ∉ r.calls :=
  c4_empty_message_guard emptyMessageTracker allOkEnv none false ""
    rfl rfl (by decide) rfl rfl (by decide) rfl
